import Mathlib

/-!
Verification of the validate-and-repair control loop of the contract-test
generation system: the static quality scorer (`src/test_generator/output_parser.py`),
the process runner and error extractor (`src/github_ops/test_runner.py`,
`src/github_ops/workflow_runner.py`), the error-convergence detector
(`errors_are_similar`), and the retry control loop (`_run_main`).

The Python code is shallowly embedded: pure functions become Lean functions,
the regular-expression engine is an abstract oracle parameter, the external
generator and the subprocess are oracle stubs, filesystem writes are a set of
filenames, and floats are modelled as rationals.
-/

namespace ContractTesting

/-- Bracket characters used by the balanced-delimiter check, by code point. -/
def openBrace : Char := Char.ofNat 123

/-- Closing curly brace, by code point. -/
def closeBrace : Char := Char.ofNat 125

/-- Opening parenthesis. -/
def openParen : Char := Char.ofNat 40

/-- Closing parenthesis. -/
def closeParen : Char := Char.ofNat 41

/-- Opening square bracket. -/
def openBracket : Char := Char.ofNat 91

/-- Closing square bracket. -/
def closeBracket : Char := Char.ofNat 93

/-- Number of occurrences of a character in a string (Python `str.count`). -/
def countChar (s : String) (c : Char) : Nat := s.data.count c

/-- Python `str.lower()`, character-wise. -/
def pyLower (s : String) : String := String.mk (s.data.map Char.toLower)

/-- Python `str.strip()`: remove leading and trailing whitespace. -/
def pyStrip (s : String) : String :=
  String.mk (((s.data.dropWhile Char.isWhitespace).reverse.dropWhile
    Char.isWhitespace).reverse)

/-- Python slice `s[:n]`. -/
def strTake (s : String) (n : Nat) : String := String.mk (s.data.take n)

/-- Python `s.endswith(suff)`. -/
def strEndsWith (s suff : String) : Bool := suff.data.isSuffixOf s.data

/-- Does `p` occur as a contiguous sublist? -/
def isSubChars (p : List Char) : List Char → Bool
  | [] => p.isEmpty
  | c :: cs => p.isPrefixOf (c :: cs) || isSubChars p cs

/-- Python `kw in line` (substring containment). -/
def strContains (line kw : String) : Bool := isSubChars kw.data line.data

/-- `PurePath(p).name`: the final component of a slash-separated path. -/
def pathName (p : String) : String :=
  String.mk ((p.data.reverse.takeWhile (fun c => c ≠ '/')).reverse)

/-- `Severity` enum of `output_parser.py`. -/
inductive Severity where
  | error
  | warning
  | info
deriving DecidableEq, Repr

/-- `QualityIssue` dataclass of `output_parser.py`. -/
structure QualityIssue where
  severity : Severity
  rule : String
  message : String
  line : Option Int := none
  suggestion : Option String := none
deriving DecidableEq, Repr

/-- `ParsedOutput` dataclass of `output_parser.py`; `syntax_valid` embeds the
Python field named `is_valid_syntax`. -/
structure ParsedOutput where
  code : String
  language : String
  syntax_valid : Bool := true
  syntax_error : Option String := none
  quality_score : ℚ := 0
  issues : List QualityIssue := []
  line_count : Nat := 0
  has_imports : Bool := false
  has_test_function : Bool := false
  has_pact_setup : Bool := false
  has_interactions : Bool := false
  has_matchers : Bool := false
  has_error_handling : Bool := false
  uses_correct_version : Bool := false
  uses_execute_pattern : Bool := false
deriving DecidableEq, Repr

/-- Per-issue deduction applied by `OutputParser._calculate_score`:
Error −1.0, Warning −0.3, Info 0. -/
def issueDeduction (s : ℚ) (i : QualityIssue) : ℚ :=
  match i.severity with
  | .error => s - 1
  | .warning => s - 3/10
  | .info => s

/-- `OutputParser._calculate_score`: base 5.0, bounded positive increments for
satisfied checks, per-issue deductions, clamped to [0, 10]. -/
def calculate_score (r : ParsedOutput) : ℚ :=
  let score : ℚ := 5
  let score := score + (if r.syntax_valid then 1 else 0)
  let score := score + (if r.has_imports then 1/2 else 0)
  let score := score + (if r.has_test_function then 1/2 else 0)
  let score := score + (if r.has_pact_setup then 1 else 0)
  let score := score + (if r.has_interactions then 1 else 0)
  let score := score + (if r.has_matchers then 1/2 else 0)
  let score := score + (if r.has_error_handling then 1/2 else 0)
  let score := score + (if r.uses_correct_version then 1/2 else 0)
  let score := score + (if r.uses_execute_pattern then 1/2 else 0)
  let score := r.issues.foldl issueDeduction score
  max 0 (min 10 score)

/-- Appending one issue to a report (the "add a single additional issue"
operation the spec reasons about). -/
def addIssue (r : ParsedOutput) (i : QualityIssue) : ParsedOutput :=
  { r with issues := r.issues ++ [i] }

/-- The regular-expression engine of the Python `re` module, abstracted as an
oracle: `search pat code` models `re.search(pat, code) is not None`,
`searchCI` models the same with `re.IGNORECASE`, and `countMultiline pat code`
models `len(re.findall(pat, code, re.MULTILINE))`. -/
structure Re where
  search : String → String → Bool
  searchCI : String → String → Bool
  countMultiline : String → String → Nat

/-- One language entry of the rule tables `GO_RULES`, `TYPESCRIPT_RULES`,
`JAVA_RULES`, `KOTLIN_RULES`, `PYTHON_RULES` in `output_parser.py`. -/
structure LangRules where
  imports_correct : List String
  imports_deprecated : List String
  pact_setup_correct : Option String
  pact_setup_deprecated : List String
  interactions_pattern : Option String
  matchers_patterns : List String
  error_handling_patterns : List String
  execute_correct : Option String
  execute_deprecated : List String
  test_function_pattern : Option String
deriving DecidableEq, Repr

/-- `GO_RULES`. -/
def GO_RULES : LangRules where
  imports_correct := ["github\\.com/pact-foundation/pact-go/v2",
    "github\\.com/stretchr/testify"]
  imports_deprecated := ["github\\.com/pact-foundation/pact-go\"[^/v2]"]
  pact_setup_correct := some "consumer\\.NewV3Pact\\("
  pact_setup_deprecated := ["consumer\\.NewPact\\(", "dsl\\.Pact\\\x7b"]
  interactions_pattern := some "\\.AddInteraction\\(\\)"
  matchers_patterns := ["consumer\\.Like\\(", "consumer\\.EachLike\\(",
    "consumer\\.Regex\\(", "consumer\\.Integer\\(", "consumer\\.String\\(",
    "consumer\\.Map\\\x7b"]
  error_handling_patterns := ["require\\.NoError\\(", "assert\\.NoError\\(",
    "if err != nil"]
  execute_correct := some "\\.ExecuteTest\\(t,"
  execute_deprecated := ["\\.Verify\\(", "pact\\.Verify\\("]
  test_function_pattern := some "func Test\\w+\\(t \\*testing\\.T\\)"

/-- `TYPESCRIPT_RULES` (also used for JavaScript). -/
def TYPESCRIPT_RULES : LangRules where
  imports_correct := ["from\\s+[\"\x27]@pact-foundation/pact[\"\x27]",
    "PactV3", "MatchersV3"]
  imports_deprecated := ["from\\s+[\"\x27]pact[\"\x27]"]
  pact_setup_correct := some "new\\s+PactV3\\s*\\("
  pact_setup_deprecated := ["new\\s+Pact\\s*\\("]
  interactions_pattern := some "\\.(given|uponReceiving)\\("
  matchers_patterns := ["like\\(", "eachLike\\(", "regex\\(", "integer\\(",
    "string\\(", "MatchersV3\\."]
  error_handling_patterns := ["expect\\(.+\\)\\.not\\.toThrow", "\\.rejects\\.",
    "try\\s*\\\x7b", "catch\\s*\\(", "await\\s+expect\\("]
  execute_correct := some "\\.executeTest\\s*\\("
  execute_deprecated := ["\\.verify\\s*\\("]
  test_function_pattern := some "(it|test|describe)\\s*\\("

/-- `JAVA_RULES`. -/
def JAVA_RULES : LangRules where
  imports_correct := ["au\\.com\\.dius\\.pact\\.consumer",
    "au\\.com\\.dius\\.pact\\.consumer\\.junit5"]
  imports_deprecated := []
  pact_setup_correct := some "@Pact\\s*\\("
  pact_setup_deprecated := []
  interactions_pattern := some "\\.(given|uponReceiving)\\("
  matchers_patterns := ["LambdaDsl\\.", "PactDslJsonBody", "newJsonBody\\(",
    "stringType\\(", "integerType\\("]
  error_handling_patterns := ["assertNotNull\\(", "assertEquals\\(",
    "assertThat\\(", "@Test"]
  execute_correct := some "@PactTestFor\\("
  execute_deprecated := []
  test_function_pattern := some "@Test\\s*\\n\\s*(public\\s+)?void\\s+\\w+\\("

/-- `KOTLIN_RULES`. -/
def KOTLIN_RULES : LangRules where
  imports_correct := ["au\\.com\\.dius\\.pact\\.consumer",
    "au\\.com\\.dius\\.pact\\.consumer\\.junit5"]
  imports_deprecated := []
  pact_setup_correct := some "@Pact\\s*\\("
  pact_setup_deprecated := []
  interactions_pattern := some "\\.(given|uponReceiving)\\("
  matchers_patterns := ["LambdaDsl\\.", "PactDslJsonBody", "newJsonBody\\s*\\\x7b",
    "stringType\\(", "integerType\\("]
  error_handling_patterns := ["assertNotNull\\(", "assertEquals\\(",
    "shouldBe\\s", "@Test"]
  execute_correct := some "@PactTestFor\\("
  execute_deprecated := []
  test_function_pattern := some "@Test\\s*\\n\\s*fun\\s+\\w+\\("

/-- `PYTHON_RULES`. -/
def PYTHON_RULES : LangRules where
  imports_correct := ["from\\s+pact\\s+import", "from\\s+pact\\.v3",
    "import\\s+pact"]
  imports_deprecated := []
  pact_setup_correct := some "Pact\\s*\\("
  pact_setup_deprecated := []
  interactions_pattern := some "\\.(given|upon_receiving)\\("
  matchers_patterns := ["Like\\(", "EachLike\\(", "Regex\\(", "match\\.",
    "Format\\."]
  error_handling_patterns := ["assert\\s+", "pytest\\.raises\\(",
    "with\\s+pact:"]
  execute_correct := some "with\\s+pact"
  execute_deprecated := []
  test_function_pattern := some "def\\s+test_\\w+\\("

/-- `LANGUAGE_RULES` lookup dict. -/
def LANGUAGE_RULES (language : String) : Option LangRules :=
  if language = "go" then some GO_RULES
  else if language = "typescript" then some TYPESCRIPT_RULES
  else if language = "javascript" then some TYPESCRIPT_RULES
  else if language = "java" then some JAVA_RULES
  else if language = "kotlin" then some KOTLIN_RULES
  else if language = "python" then some PYTHON_RULES
  else none

/-- Construct a `QualityIssue` (positional helper for the literals below). -/
def mkIssue (sev : Severity) (rule msg : String) (sug : Option String := none) :
    QualityIssue :=
  ⟨sev, rule, msg, none, sug⟩

/-- `OutputParser._check_minimum_code`. -/
def check_minimum_code (r : ParsedOutput) : ParsedOutput :=
  let r :=
    if r.line_count < 10 then
      addIssue r (mkIssue .error "minimum-code"
        ("Code too short (" ++ toString r.line_count ++ " lines). Expected at least 10 lines.")
        (some "Ensure complete test is generated, not just a stub"))
    else r
  if pyStrip r.code = "" then
    addIssue r (mkIssue .error "empty-code" "Generated code is empty")
  else r

/-- `OutputParser._check_imports`. -/
def check_imports (re : Re) (rules : LangRules) (r : ParsedOutput) : ParsedOutput :=
  let has_correct := rules.imports_correct.any (fun pat => re.search pat r.code)
  let r := { r with has_imports := has_correct }
  let r :=
    if !has_correct && !rules.imports_correct.isEmpty then
      addIssue r (mkIssue .error "missing-imports" "Missing required Pact imports"
        (some "Add import for Pact library"))
    else r
  rules.imports_deprecated.foldl (fun r pat =>
    if re.search pat r.code then
      addIssue r (mkIssue .error "deprecated-import"
        "Using deprecated Pact import (v1 style)" (some "Update to Pact v2/v3 imports"))
    else r) r

/-- `OutputParser._check_pact_setup`. -/
def check_pact_setup (re : Re) (rules : LangRules) (r : ParsedOutput) : ParsedOutput :=
  let matched :=
    match rules.pact_setup_correct with
    | some pat => re.search pat r.code
    | none => false
  let r :=
    if matched then { r with has_pact_setup := true, uses_correct_version := true }
    else
      addIssue r (mkIssue .error "missing-pact-setup" "Missing or incorrect Pact setup"
        (some "Use correct Pact initialization (V3 for Go/TS, V4 for Java/Kotlin)"))
  rules.pact_setup_deprecated.foldl (fun r pat =>
    if re.search pat r.code then
      addIssue { r with uses_correct_version := false }
        (mkIssue .error "deprecated-pact-setup" "Using deprecated Pact setup pattern"
          (some "Update to current Pact version pattern"))
    else r) r

/-- `OutputParser._check_interactions`. -/
def check_interactions (re : Re) (rules : LangRules) (r : ParsedOutput) : ParsedOutput :=
  let matched :=
    match rules.interactions_pattern with
    | some pat => re.search pat r.code
    | none => false
  if matched then { r with has_interactions := true }
  else
    addIssue r (mkIssue .error "missing-interactions" "No Pact interactions found"
      (some "Add at least one interaction with given/uponReceiving"))

/-- `OutputParser._check_matchers`. -/
def check_matchers (re : Re) (rules : LangRules) (r : ParsedOutput) : ParsedOutput :=
  let has_matchers := rules.matchers_patterns.any (fun pat => re.search pat r.code)
  let r := { r with has_matchers := has_matchers }
  if !has_matchers then
    addIssue r (mkIssue .warning "no-matchers" "No Pact matchers found. Using hardcoded values."
      (some "Use Like(), EachLike(), Regex() etc. for flexible matching"))
  else r

/-- `OutputParser._check_error_handling`. -/
def check_error_handling (re : Re) (rules : LangRules) (r : ParsedOutput) : ParsedOutput :=
  let has_eh := rules.error_handling_patterns.any (fun pat => re.search pat r.code)
  let r := { r with has_error_handling := has_eh }
  if !has_eh then
    addIssue r (mkIssue .warning "no-error-handling" "No error handling found"
      (some "Add assertions or error checks (require.NoError, expect, assert)"))
  else r

/-- `OutputParser._check_execute_pattern`. -/
def check_execute_pattern (re : Re) (rules : LangRules) (r : ParsedOutput) : ParsedOutput :=
  let r :=
    match rules.execute_correct with
    | some pat => if re.search pat r.code then { r with uses_execute_pattern := true } else r
    | none => r
  rules.execute_deprecated.foldl (fun r pat =>
    if re.search pat r.code then
      addIssue { r with uses_execute_pattern := false }
        (mkIssue .error "deprecated-execute-pattern"
          "Using deprecated execution pattern (Verify instead of ExecuteTest)"
          (some "Replace Verify() with ExecuteTest()"))
    else r) r

/-- `OutputParser._check_test_function`. -/
def check_test_function (re : Re) (rules : LangRules) (r : ParsedOutput) : ParsedOutput :=
  let matched :=
    match rules.test_function_pattern with
    | some pat => re.search pat r.code
    | none => false
  if matched then { r with has_test_function := true }
  else
    addIssue r (mkIssue .error "missing-test-function" "No test function found"
      (some "Wrap code in proper test function"))

/-- `OutputParser._check_syntax`: the structural balanced-delimiter check. -/
def check_syntax (r : ParsedOutput) : ParsedOutput :=
  let code := r.code
  let r :=
    if countChar code openBrace ≠ countChar code closeBrace then
      addIssue { r with syntax_valid := false, syntax_error := some "Unbalanced curly braces \x7b\x7d" }
        (mkIssue .error "syntax-braces" "Unbalanced curly braces"
          (some "Check for missing \x7b or \x7d"))
    else r
  let r :=
    if countChar code openParen ≠ countChar code closeParen then
      addIssue { r with syntax_valid := false, syntax_error := some "Unbalanced parentheses ()" }
        (mkIssue .error "syntax-parens" "Unbalanced parentheses"
          (some "Check for missing ( or )"))
    else r
  if countChar code openBracket ≠ countChar code closeBracket then
    addIssue { r with syntax_valid := false, syntax_error := some "Unbalanced brackets []" }
      (mkIssue .error "syntax-brackets" "Unbalanced brackets"
        (some "Check for missing [ or ]"))
  else r

/-- The `hardcoded_patterns` table of `OutputParser._check_common_issues`. -/
def hardcodedPatterns : List (String × String) :=
  [("[\"\x27]123[\"\x27]", "Hardcoded ID \x27123\x27"),
   ("[\"\x27]test[\"\x27]", "Hardcoded value \x27test\x27"),
   ("[\"\x27]example[\"\x27]", "Hardcoded value \x27example\x27")]

/-- `OutputParser._check_common_issues`. The float comparison
`comment_lines / total_lines > 0.3` is embedded as the equivalent exact
integer comparison `3 * total_lines < 10 * comment_lines` (guarded, as in the
source, by `total_lines > 0`). -/
def check_common_issues (re : Re) (r : ParsedOutput) : ParsedOutput :=
  let code := r.code
  let r :=
    if re.searchCI "//\\s*(TODO|FIXME|XXX)" code then
      addIssue r (mkIssue .info "todo-comments" "Contains TODO/FIXME comments"
        (some "Complete or remove placeholder comments"))
    else r
  let comment_lines := re.countMultiline "^\\s*(//|#|/\\*|\\*)" code
  let total_lines := r.line_count
  let r :=
    if 0 < total_lines ∧ 3 * total_lines < 10 * comment_lines then
      addIssue r (mkIssue .warning "excessive-comments"
        ("High comment ratio (" ++ toString comment_lines ++ "/" ++
          toString total_lines ++ " lines)")
        (some "Remove commented-out code blocks"))
    else r
  let r :=
    match hardcodedPatterns.find? (fun pm => re.search pm.1 code) with
    | some pm =>
      addIssue r (mkIssue .info "hardcoded-values" pm.2
        (some "Consider using matchers for flexibility"))
    | none => r
  let r :=
    if re.search "WithRequest\\([^)]*\\?[^)]*\\)" code then
      addIssue r (mkIssue .warning "query-in-path" "Query parameters embedded in path string"
        (some "Use WithQuery() or .query() method instead"))
    else r
  if re.search "ExecuteTest\\([^\x7b]*\\\x7b\\s*return\\s+nil\\s*\\\x7d" code then
    addIssue r (mkIssue .warning "empty-callback"
      "ExecuteTest callback is empty (just returns nil)"
      (some "Add actual client call and assertions"))
  else r

/-- The Warning-level issue emitted by `OutputParser.parse` for a language tag
that has no entry in `LANGUAGE_RULES`. -/
def unknownLanguageIssue (language : String) : QualityIssue :=
  mkIssue .warning "unknown-language"
    ("Unknown language \x27" ++ language ++ "\x27, skipping pattern checks")

/-- Split a character list at every newline character, keeping empty pieces
(Python `str.split("\\n")` at character level). Never returns `[]`. -/
def splitNLChars : List Char → List (List Char)
  | [] => [[]]
  | c :: cs =>
    let rest := splitNLChars cs
    if c = '\n' then [] :: rest
    else (c :: rest.headD []) :: rest.tail

/-- Join character-list lines with newline characters (inverse of
`splitNLChars` on newline-free pieces). -/
def joinNLChars : List (List Char) → List Char
  | [] => []
  | [l] => l
  | l :: ls => l ++ '\n' :: joinNLChars ls

/-- Python `s.split("\\n")`. -/
def splitNL (s : String) : List String := (splitNLChars s.data).map String.mk

/-- Python `"\\n".join(lines)`. -/
def joinNL (lines : List String) : String :=
  String.mk (joinNLChars (lines.map String.data))

/-- `OutputParser.parse`: validate and score one generated artifact. The
language tag is lowercased; a tag absent from `LANGUAGE_RULES` short-circuits
with a neutral score of 5.0 and a single Warning issue, skipping every check
(including `_check_syntax`); otherwise all checks run in source order and the
score is computed by `_calculate_score`. -/
def OutputParser.parse (re : Re) (code language : String) : ParsedOutput :=
  let language := pyLower language
  let result : ParsedOutput :=
    { code := code, language := language, line_count := (splitNL (pyStrip code)).length }
  match LANGUAGE_RULES language with
  | none => { addIssue result (unknownLanguageIssue language) with quality_score := 5 }
  | some rules =>
    let r := check_minimum_code result
    let r := check_imports re rules r
    let r := check_pact_setup re rules r
    let r := check_interactions re rules r
    let r := check_matchers re rules r
    let r := check_error_handling re rules r
    let r := check_execute_pattern re rules r
    let r := check_test_function re rules r
    let r := check_syntax r
    let r := check_common_issues re r
    { r with quality_score := calculate_score r }

/-- The regex oracle in which no pattern matches anything (e.g. the behaviour
of `re.search` on the empty code string for every pattern in the rule tables,
all of which require at least one character). -/
def reNone : Re := ⟨fun _ _ => false, fun _ _ => false, fun _ _ => 0⟩

/-- All "positive" patterns of the Go rule table: the correct imports, Pact
setup, interactions, matchers, error handling, execute pattern and test
function. A regex engine behaves like `oracleGoGood` on any Go file that
exhibits all of these idioms and none of the deprecated or smelly ones. -/
def goGoodPatterns : List String :=
  GO_RULES.imports_correct ++ GO_RULES.pact_setup_correct.toList ++
    GO_RULES.interactions_pattern.toList ++ GO_RULES.matchers_patterns ++
    GO_RULES.error_handling_patterns ++ GO_RULES.execute_correct.toList ++
    GO_RULES.test_function_pattern.toList

/-- Oracle matching exactly the positive Go patterns. -/
def oracleGoGood : Re :=
  ⟨fun pat _ => goGoodPatterns.contains pat, fun _ _ => false, fun _ _ => 0⟩

/-- A ten-line code body (so the minimum-length check passes) with no
delimiter characters (so the balance check passes). -/
def code10 : String := "a\nb\nc\nd\ne\nf\ng\nh\ni\nj"

/-- The report `OutputParser.parse oracleGoGood code10 "go"` produces before
scoring: every checklist flag satisfied and no issues. -/
def reportAll : ParsedOutput :=
  { code := code10, language := "go", syntax_valid := true, issues := [],
    line_count := 10, has_imports := true, has_test_function := true,
    has_pact_setup := true, has_interactions := true, has_matchers := true,
    has_error_handling := true, uses_correct_version := true,
    uses_execute_pattern := true }

/-- The Error-severity issue emitted by `_check_imports` for a deprecated
import, used as the "single additional Error issue". -/
def errDep : QualityIssue :=
  mkIssue .error "deprecated-import" "Using deprecated Pact import (v1 style)"
    (some "Update to Pact v2/v3 imports")

/-- Python `str.split()` at character level: split on whitespace runs,
discarding empty pieces. `acc` holds the current word reversed. -/
def wordsAux : List Char → List Char → List (List Char)
  | [], acc => if acc.isEmpty then [] else [acc.reverse]
  | c :: cs, acc =>
    if c.isWhitespace then
      if acc.isEmpty then wordsAux cs [] else acc.reverse :: wordsAux cs []
    else wordsAux cs (c :: acc)

/-- Python `str.split()` (no separator argument). -/
def pySplitWs (s : String) : List String := (wordsAux s.data []).map String.mk

/-- Python `str.isdigit()` (restricted to ASCII digits). -/
def pyIsDigit (w : String) : Bool := w.length != 0 && w.data.all (fun c => c.isDigit)

/-- The `common_words` stopword set of `errors_are_similar` in
`workflow_runner.py`. -/
def common_words : List String :=
  ["the", "a", "an", "is", "at", "in", "on", "for", "to", "of", "and", "or",
   "it", "be", "as", "was", "with", "that", "this", "from", "by", "are",
   "not", "but", "have", "has", "had", "do", "does", "did", "will", "would",
   "could", "should", "may", "might", "must", "can", "cannot", "been", "being",
   "test", "tests", "error", "failed", "expected", "received", "line"]

/-- `extract_keywords` (nested in `errors_are_similar`): lowercase, split on
whitespace, drop stopwords, tokens of length ≤ 2 and purely numeric tokens;
the result is a set of words. -/
def extract_keywords (text : String) : Finset String :=
  ((pySplitWs (pyLower text)).filter (fun w =>
    !(common_words.contains w) && decide (2 < w.length) && !(pyIsDigit w))).toFinset

/-- `errors_are_similar` of `workflow_runner.py`: Jaccard similarity of the
filtered keyword sets, compared against the threshold (default 0.6). -/
def errors_are_similar (error1 error2 : String) (threshold : ℚ := 3/5) : Bool :=
  if error1 = "" ∨ error2 = "" then false
  else
    let words1 := extract_keywords error1
    let words2 := extract_keywords error2
    if words1 = ∅ ∨ words2 = ∅ then false
    else
      let intersection := (words1 ∩ words2).card
      let union := (words1 ∪ words2).card
      let similarity : ℚ := if 0 < union then (intersection : ℚ) / (union : ℚ) else 0
      decide (threshold ≤ similarity)

/-- The per-language `patterns` table of `extract_error_lines` in
`workflow_runner.py`, with its default `["Error:", "FAIL", "Exception:"]`. -/
def errorPatternsFor (language : String) : List String :=
  if language = "javascript" then
    ["Error:", "TypeError:", "ReferenceError:", "FAIL", "expect(", "Cannot find",
     "SyntaxError"]
  else if language = "typescript" then
    ["Error:", "TypeError:", "ReferenceError:", "FAIL", "expect(", "Cannot find",
     "TS", "SyntaxError"]
  else if language = "go" then
    ["FAIL", "panic:", "Error:", "undefined:", "cannot", "syntax error"]
  else if language = "python" then
    ["Error:", "AssertionError:", "FAILED", "ImportError:", "ModuleNotFoundError:",
     "SyntaxError"]
  else ["Error:", "FAIL", "Exception:"]

/-- The scanning loop of `extract_error_lines`: capture a line on a keyword
hit (arming a 5-line lookahead window) or while the window is open, and stop
as soon as 30 lines are captured. -/
def captureLines (kws : List String) : List String → Nat → List String → List String
  | [], _, acc => acc
  | l :: ls, captureNext, acc =>
    let hit := kws.any (fun kw => strContains l kw)
    let acc2 := if hit then acc ++ [l] else if 0 < captureNext then acc ++ [l] else acc
    let cn2 := if hit then 5 else if 0 < captureNext then captureNext - 1 else captureNext
    if 30 ≤ acc2.length then acc2 else captureLines kws ls cn2 acc2

/-- `extract_error_lines` of `workflow_runner.py`: keyword-anchored windowed
capture of at most 30 lines, falling back to the last 20 lines. -/
def extract_error_lines (output language : String) : String :=
  let lines := splitNL output
  let keywords := errorPatternsFor language
  let error_lines := captureLines keywords lines 0 []
  if error_lines ≠ [] then joinNL error_lines
  else joinNL (lines.drop (lines.length - 20))

/-- The `error_indicators` list of `TestRunner._extract_error_message`. -/
def errorIndicators : List String :=
  ["error:", "Error:", "ERROR", "failed", "Failed", "FAILED",
   "exception", "Exception", "TypeError", "ReferenceError", "SyntaxError",
   "AssertionError", "expect(", "Cannot find", "not found", "undefined",
   "FAIL ", "✕", "✗"]

/-- The scanning loop of `TestRunner._extract_error_message`: once an error
indicator is seen, capture every following line, stopping at 30. -/
def captureAll : List String → Bool → List String → List String
  | [], _, acc => acc
  | l :: ls, capture, acc =>
    let capture2 := capture || errorIndicators.any (fun kw => strContains l kw)
    if capture2 then
      let acc2 := acc ++ [l]
      if 30 ≤ acc2.length then acc2 else captureAll ls capture2 acc2
    else captureAll ls capture2 acc

/-- `TestRunner._extract_error_message`: indicator-anchored capture of at most
30 lines; fallback to the last 20 lines when the output has more than 20
lines, otherwise the whole output. -/
def extract_error_message (output : String) : String :=
  let lines := splitNL output
  let error_lines := captureAll lines false []
  if error_lines ≠ [] then joinNL error_lines
  else if 20 < lines.length then joinNL (lines.drop (lines.length - 20))
  else output

/-- `TestResult` dataclass of `test_runner.py`. -/
structure TestResult where
  passed : Bool
  output : String
  error_message : Option String := none
  exit_code : Int := 0
  command_used : String := ""
deriving DecidableEq, Repr

/-- The outcome of one `subprocess.run` call, abstracted: the child completed
with an exit code and captured streams, the wall-clock timeout expired, or the
host raised some other exception. -/
inductive SubprocOutcome where
  | completed (returncode : Int) (stdout stderr : String)
  | timedOut
  | raised (msg : String)
deriving DecidableEq, Repr

/-- `TestRunner._execute_test_command`: passed iff exit code 0; on a nonzero
exit the combined `stdout\n stderr` output is summarized by
`_extract_error_message`; on timeout a synthetic failed result with sentinel
exit code −1 and a "timed out after Ns" message is returned instead of
propagating the exception. -/
def executeTestCommand (timeout : Nat) (cmd : String) (world : SubprocOutcome) :
    TestResult :=
  match world with
  | .completed rc stdout stderr =>
    let combined_output := pyStrip (stdout ++ "\n" ++ stderr)
    if rc = 0 then
      { passed := true, output := combined_output, exit_code := 0, command_used := cmd }
    else
      { passed := false, output := combined_output,
        error_message := some (extract_error_message combined_output),
        exit_code := rc, command_used := cmd }
  | .timedOut =>
    { passed := false, output := "",
      error_message := some ("Test execution timed out after " ++ toString timeout ++ "s"),
      exit_code := -1, command_used := cmd }
  | .raised msg =>
    { passed := false, output := "", error_message := some msg,
      exit_code := -1, command_used := cmd }

/-- The `TEST_COMMANDS` entry for one language in `test_runner.py`. -/
structure TestCommands where
  install : String
  test : String
  test_single : String
  check_tool : String
deriving DecidableEq, Repr

/-- The `TEST_COMMANDS` table of `TestRunner`. -/
def TEST_COMMANDS (language : String) : Option TestCommands :=
  if language = "javascript" then
    some ⟨"npm install", "npm test -- --testPathPattern={test_path} --passWithNoTests",
      "npm test -- {test_file} --passWithNoTests", "npm"⟩
  else if language = "typescript" then
    some ⟨"npm install", "npm test -- --testPathPattern={test_path} --passWithNoTests",
      "npm test -- {test_file} --passWithNoTests", "npm"⟩
  else if language = "go" then
    some ⟨"go mod download", "go test -v {test_path}/...", "go test -v {test_file}", "go"⟩
  else if language = "python" then
    some ⟨"pip install -r requirements.txt", "pytest {test_path} -v",
      "pytest {test_file} -v", "pytest"⟩
  else if language = "java" then
    some ⟨"./gradlew build -x test || mvn compile -DskipTests",
      "./gradlew test --tests \x27*Pact*\x27 || mvn test -Dtest=\x27*Pact*\x27",
      "./gradlew test --tests {test_class} || mvn test -Dtest={test_class}", "gradle"⟩
  else if language = "kotlin" then
    some ⟨"./gradlew build -x test", "./gradlew test --tests \x27*Pact*\x27",
      "./gradlew test --tests {test_class}", "gradle"⟩
  else none

/-- The supported language tags, in `TEST_COMMANDS` order. -/
def supportedLanguages : List String :=
  ["javascript", "typescript", "go", "python", "java", "kotlin"]

/-- The state `TestRunner.__init__` establishes on success. -/
structure TestRunnerState where
  language : String
  repo_path : String
  timeout : Nat
  install_deps : Bool
  commands : TestCommands
deriving DecidableEq, Repr

/-- `TestRunner.__init__`: lowercase the language, reject tags outside
`TEST_COMMANDS` with a `ValueError` (modelled as `Except.error`), otherwise
record the per-language command table. -/
def TestRunner.init (language repo_path : String) (timeout : Nat := 120)
    (install_deps : Bool := true) : Except String TestRunnerState :=
  let lang := pyLower language
  match TEST_COMMANDS lang with
  | some cmds => .ok ⟨lang, repo_path, timeout, install_deps, cmds⟩
  | none => .error ("Unsupported language: " ++ language)

/-- One generated test file (filename and code), as consumed by the loop. -/
structure GeneratedTest where
  filename : String
  code : String
deriving DecidableEq, Repr

/-- The part of `PipelineResult` that `_run_main` consumes after each
`pipeline.run` call. -/
structure PipelineRunOutcome where
  has_tests : Bool
  skip_reason : Option String := none
  error : Option String := none
  detected_language : String := "unknown"
  generated_tests : List GeneratedTest := []
deriving DecidableEq, Repr

/-- `WorkflowResult` dataclass of `workflow_runner.py`. -/
structure WorkflowResult where
  tests_pass : Bool := false
  has_tests : Bool := false
  attempts : Nat := 0
  language : String := "unknown"
  generated_files : List String := []
  skip_reason : Option String := none
  error : Option String := none
  is_revision : Bool := false
  stopped_early : Bool := false
deriving DecidableEq, Repr

/-- Trace record of one Writing step: the artifact directory before and after,
and the filenames written. -/
structure WriteEvent where
  attempt : Nat
  dirBefore : Finset String
  dirAfter : Finset String
  files : List String
deriving DecidableEq

/-- The default (dummy) write event, used with `List.getD`. -/
def noWrite : WriteEvent := ⟨0, ∅, ∅, []⟩

/-- Loop-carried state of `_run_main`: the accumulated `WorkflowResult`, the
`previous_error` and `revision_feedback` locals, the contents of the shared
`tests/contract-tests` directory (a set of filenames), and a trace of Process
Runner invocations and Writing steps. -/
structure LoopState where
  result : WorkflowResult
  previous_error : Option String := none
  feedback : Option String := none
  dir : Finset String
  runnerCalls : List (Nat × List String) := []
  writes : List WriteEvent := []
deriving DecidableEq

/-- The external generation pipeline (`pipeline.run`), abstracted as an oracle
from the attempt number and the current feedback string. -/
abbrev GenStub := Nat → Option String → PipelineRunOutcome

/-- The Process Runner (`run_tests_for_language`), abstracted as an oracle
from the attempt number and the written filenames to `(success, error_output)`. -/
abbrev ExecStub := Nat → List String → Bool × String

/-- The retry feedback string built by `_run_main` after a failed attempt. -/
def buildRetryFeedback (error_output language : String) : String :=
  "The generated tests FAILED when executed. Fix these errors:\n\n" ++
    strTake error_output 4000 ++
    "\n\nIMPORTANT:\n1. Fix ALL syntax errors\n2. Use correct imports for " ++
    language ++
    "\n3. Do NOT create fake client classes - use actual consumer functions" ++
    "\n4. Ensure all dependencies exist" ++
    "\n5. Query parameters must use string() matcher, never boolean() or integer()" ++
    "\n6. Consumer and provider names must match Pactflow exactly"

/-- One iteration of the `_run_main` retry loop (the body of
`for attempt in range(1, max_retries + 2)`), returning the new state and a
break flag. Generation, Writing (cleaning `*.test.js` files on attempts > 1),
Execution, the same-error check and retry-feedback preparation mirror the
source; the Process Runner invocation is recorded in `runnerCalls`. -/
def loopStep (gen : GenStub) (exec : ExecStub) (maxRetries attempt : Nat)
    (st : LoopState) : LoopState × Bool :=
  let r0 := { st.result with attempts := attempt }
  let pr := gen attempt st.feedback
  let r1 := { r0 with language := pr.detected_language }
  if pr.has_tests then
    let r2 := { r1 with has_tests := true }
    let dirBefore := st.dir
    let dirCleaned :=
      if 1 < attempt then dirBefore.filter (fun f => strEndsWith f ".test.js" = false)
      else dirBefore
    let files := pr.generated_tests.map (fun t => pathName t.filename)
    let dirAfter := dirCleaned ∪ files.toFinset
    let r3 := { r2 with generated_files := files }
    let writes2 := st.writes ++ [⟨attempt, dirBefore, dirAfter, files⟩]
    let er := exec attempt files
    let calls2 := st.runnerCalls ++ [(attempt, files)]
    if er.1 then
      ({ st with result := { r3 with tests_pass := true }, dir := dirAfter, writes := writes2, runnerCalls := calls2 }, true)
    else
      let isRepeat :=
        match st.previous_error with
        | some pe => if pe ≠ "" then errors_are_similar pe er.2 else false
        | none => false
      if isRepeat then
        ({ st with result := { r3 with stopped_early := true, error := some "Same error occurred twice - stopping early" }, dir := dirAfter, writes := writes2, runnerCalls := calls2 }, true)
      else
        let st2 := { st with result := r3, dir := dirAfter, writes := writes2, runnerCalls := calls2, previous_error := some er.2 }
        if attempt ≤ maxRetries then
          ({ st2 with feedback := some (buildRetryFeedback er.2 r3.language) }, false)
        else
          ({ st2 with result := { r3 with error := some "Tests failed validation after all retry attempts" } }, false)
  else
    let rFinal :=
      match pr.skip_reason with
      | some s => { r1 with skip_reason := some s }
      | none =>
        match pr.error with
        | some e => { r1 with error := some e }
        | none => r1
    ({ st with result := rFinal }, true)

/-- The `for attempt in range(1, max_retries + 2)` loop driver: `rem` is the
number of remaining iterations, `attempt` the 1-based attempt number. -/
def loopAux (gen : GenStub) (exec : ExecStub) (maxRetries : Nat) :
    Nat → Nat → LoopState → LoopState
  | _, 0, st => st
  | attempt, rem + 1, st =>
    let sb := loopStep gen exec maxRetries attempt st
    if sb.2 then sb.1 else loopAux gen exec maxRetries (attempt + 1) rem sb.1

/-- The state `_run_main` starts from: an empty `WorkflowResult` (with
`is_revision` reflecting the presence of developer feedback), no previous
error, the initial directory contents, and the revision feedback as the first
feedback of that attempt. -/
def initState (initDir : Finset String) (revision_feedback : Option String) :
    LoopState :=
  { result := { is_revision := revision_feedback.isSome },
    feedback := revision_feedback, dir := initDir }

/-- The `_run_main` retry loop: at most `maxRetries + 1` iterations starting
at attempt 1. -/
def runWorkflow (gen : GenStub) (exec : ExecStub) (maxRetries : Nat)
    (initDir : Finset String) (revision_feedback : Option String := none) :
    LoopState :=
  loopAux gen exec maxRetries 1 (maxRetries + 1) (initState initDir revision_feedback)

/-- A generator stub that always returns a single artifact whose code is
empty — its quality report (under any regex engine) contains Error issues,
hence is blocking in the sense of the spec. -/
def genBlocked : GenStub := fun _ _ =>
  { has_tests := true, detected_language := "javascript",
    generated_tests := [⟨"items.test.js", ""⟩] }

/-- An executor stub whose runs succeed. -/
def execPass : ExecStub := fun _ _ => (true, "")

/-- A generator stub that always produces one test file. -/
def genAlways : GenStub := fun _ _ =>
  { has_tests := true, detected_language := "javascript",
    generated_tests := [⟨"t.test.js", "x"⟩] }

/-- An executor stub that always fails with an excerpt made entirely of
stopwords, short tokens and digits — its filtered keyword set is empty. -/
def execStopword : ExecStub := fun _ _ => (false, "test failed at line 1")

/-- An executor stub that always fails with a keyword-rich excerpt. -/
def execSameErr : ExecStub := fun _ _ => (false, "undefined: fooBar")

/-- A generator stub renaming its artifact between attempts: `a.spec.js` on
attempt 1, `b.test.js` on attempt 2. -/
def gen9 : GenStub := fun a _ =>
  if a = 1 then
    { has_tests := true, detected_language := "javascript",
      generated_tests := [⟨"a.spec.js", "x"⟩] }
  else
    { has_tests := true, detected_language := "javascript",
      generated_tests := [⟨"b.test.js", "x"⟩] }

/-- An executor stub failing with dissimilar errors (the second has an empty
keyword set), so the loop does not stop early. -/
def exec9 : ExecStub := fun a _ =>
  (false, if a = 1 then "undefined: alpha" else "is a to")

theorem calculate_score_nonneg (r : ParsedOutput) : 0 ≤ calculate_score r :=
  le_max_left 0 _

theorem calculate_score_le_ten (r : ParsedOutput) : calculate_score r ≤ 10 :=
  max_le (by norm_num) (min_le_left 10 _)

theorem foldl_issueDeduction_append_error (issues : List QualityIssue)
    (e : QualityIssue) (he : e.severity = .error) (s : ℚ) :
    (issues ++ [e]).foldl issueDeduction s = issues.foldl issueDeduction s - 1 := by
  rw [List.foldl_append]
  simp [issueDeduction, he]

theorem calculate_score_addIssue_error_le (r : ParsedOutput) (e : QualityIssue)
    (he : e.severity = .error) :
    calculate_score (addIssue r e) ≤ calculate_score r := by
  unfold calculate_score addIssue
  simp only
  rw [foldl_issueDeduction_append_error _ _ he]
  have h : ∀ x : ℚ, max 0 (min 10 (x - 1)) ≤ max 0 (min 10 x) := by
    intro x
    apply max_le (le_max_left 0 _)
    calc min 10 (x - 1) ≤ min 10 x := by
          apply min_le_min le_rfl; linarith
    _ ≤ max 0 (min 10 x) := le_max_right _ _
  exact h _

theorem clamp_sub_one_cases (x : ℚ) :
    max 0 (min 10 (x - 1)) < max 0 (min 10 x) ∨ max 0 (min 10 (x - 1)) = 0 ∨
      max 0 (min 10 x) = 10 := by
  rcases le_or_lt x 1 with h1 | h1
  · right; left
    have : min 10 (x - 1) ≤ 0 := le_trans (min_le_right _ _) (by linarith)
    simp [max_eq_left this]
  · rcases le_or_lt 10 x with h2 | h2
    · right; right
      have : min 10 x = 10 := min_eq_left (by linarith)
      simp [this]
    · left
      have hx1 : min 10 (x - 1) = x - 1 := min_eq_right (by linarith)
      have hx2 : min 10 x = x := min_eq_right (by linarith)
      have ha : max 0 (x - 1) = x - 1 := max_eq_right (by linarith)
      have hb : max 0 x = x := max_eq_right (by linarith)
      rw [hx1, hx2, ha, hb]
      linarith

theorem calculate_score_addIssue_error_cases (r : ParsedOutput) (e : QualityIssue)
    (he : e.severity = .error) :
    calculate_score (addIssue r e) < calculate_score r ∨
      calculate_score (addIssue r e) = 0 ∨ calculate_score r = 10 := by
  unfold calculate_score addIssue
  simp only
  rw [foldl_issueDeduction_append_error _ _ he]
  exact clamp_sub_one_cases _

theorem splitNLChars_ne_nil (cs : List Char) : splitNLChars cs ≠ [] := by
  cases cs with
  | nil => simp [splitNLChars]
  | cons c cs => by_cases hc : c = '\n' <;> simp [splitNLChars, hc]

theorem mem_splitNLChars_no_newline (cs : List Char) :
    ∀ l ∈ splitNLChars cs, '\n' ∉ l := by
  induction cs with
  | nil => intro l hl; simp [splitNLChars] at hl; simp [hl]
  | cons c cs ih =>
    intro l hl
    by_cases hc : c = '\n'
    · simp only [splitNLChars, hc, if_true] at hl
      rcases List.mem_cons.mp hl with rfl | hl2
      · simp
      · exact ih l hl2
    · simp only [splitNLChars, hc, if_false] at hl
      rcases List.mem_cons.mp hl with rfl | hl2
      · intro hmem
        rcases List.mem_cons.mp hmem with heq | hmem2
        · exact hc heq.symm
        · cases hr : splitNLChars cs with
          | nil => exact absurd hr (splitNLChars_ne_nil cs)
          | cons l0 ls =>
            rw [hr] at hmem2
            simp only [List.headD_cons] at hmem2
            exact ih l0 (by rw [hr]; exact List.mem_cons_self _ _) hmem2
      · cases hr : splitNLChars cs with
        | nil => exact absurd hr (splitNLChars_ne_nil cs)
        | cons l0 ls =>
          rw [hr] at hl2
          simp only [List.tail_cons] at hl2
          exact ih l (by rw [hr]; exact List.mem_cons_of_mem _ hl2)

theorem splitNLChars_no_newline_eq (l : List Char) (hl : '\n' ∉ l) :
    splitNLChars l = [l] := by
  induction l with
  | nil => simp [splitNLChars]
  | cons c cs ih =>
    have hc : c ≠ '\n' := fun h => hl (h ▸ List.mem_cons_self _ _)
    have hcs : '\n' ∉ cs := fun h => hl (List.mem_cons_of_mem _ h)
    simp only [splitNLChars, hc, if_false, ih hcs]
    simp

theorem splitNLChars_append_newline (l rest : List Char) (hl : '\n' ∉ l) :
    splitNLChars (l ++ '\n' :: rest) = l :: splitNLChars rest := by
  induction l with
  | nil => simp [splitNLChars]
  | cons c cs ih =>
    have hc : c ≠ '\n' := fun h => hl (h ▸ List.mem_cons_self _ _)
    have hcs : '\n' ∉ cs := fun h => hl (List.mem_cons_of_mem _ h)
    show splitNLChars (c :: (cs ++ '\n' :: rest)) = (c :: cs) :: splitNLChars rest
    simp only [splitNLChars, hc, if_false]
    rw [ih hcs]
    simp

theorem splitNLChars_joinNLChars (xs : List (List Char)) (hne : xs ≠ [])
    (hnl : ∀ l ∈ xs, '\n' ∉ l) : splitNLChars (joinNLChars xs) = xs := by
  induction xs with
  | nil => exact absurd rfl hne
  | cons l ls ih =>
    cases ls with
    | nil => exact splitNLChars_no_newline_eq l (hnl l (List.mem_cons_self _ _))
    | cons l2 ls2 =>
      have hstep : joinNLChars (l :: l2 :: ls2) = l ++ '\n' :: joinNLChars (l2 :: ls2) := rfl
      rw [hstep, splitNLChars_append_newline l _ (hnl l (List.mem_cons_self _ _))]
      rw [ih (by simp) (fun x hx => hnl x (List.mem_cons_of_mem _ hx))]

theorem splitNL_joinNL (lines : List String) (hne : lines ≠ [])
    (hnl : ∀ l ∈ lines, '\n' ∉ l.data) : splitNL (joinNL lines) = lines := by
  unfold splitNL joinNL
  rw [splitNLChars_joinNLChars (lines.map String.data)
    (by simpa using hne)
    (by intro l hl
        rcases List.mem_map.mp hl with ⟨s, hs, rfl⟩
        exact hnl s hs)]
  rw [List.map_map]
  have : (String.mk ∘ String.data) = id := by
    funext s; rfl
  rw [this, List.map_id]

theorem mem_splitNL_no_newline (s : String) : ∀ l ∈ splitNL s, '\n' ∉ l.data := by
  intro l hl
  rcases List.mem_map.mp hl with ⟨cs, hcs, rfl⟩
  exact mem_splitNLChars_no_newline s.data cs hcs

theorem splitNL_ne_nil (s : String) : splitNL s ≠ [] := by
  unfold splitNL
  simpa using splitNLChars_ne_nil s.data

theorem parse_score_mem_unit (re : Re) (code language : String) :
    0 ≤ (OutputParser.parse re code language).quality_score ∧
      (OutputParser.parse re code language).quality_score ≤ 10 := by
  unfold OutputParser.parse
  cases h : LANGUAGE_RULES (pyLower language) with
  | none =>
    simp only [h]
    norm_num
  | some rules =>
    simp only [h]
    exact ⟨calculate_score_nonneg _, calculate_score_le_ten _⟩

/-- Claim C3, counterexample: at a report with every checklist flag satisfied
and no issues (realizable: `parse` produces exactly this report on `code10`
under a regex engine matching all the positive Go patterns), the raw score is
11, clamped to 10; adding a single Error-severity issue gives raw score 10,
still clamped to 10 — the score neither strictly decreases nor is 0. -/
theorem C3_counterexample :
    OutputParser.parse oracleGoGood code10 "go" =
      { reportAll with quality_score := calculate_score reportAll } ∧
    errDep.severity = .error ∧
    calculate_score reportAll = 10 ∧
    calculate_score (addIssue reportAll errDep) = 10 ∧
    ¬(calculate_score (addIssue reportAll errDep) < calculate_score reportAll ∨
      calculate_score (addIssue reportAll errDep) = 0) := by
  have h1 : calculate_score reportAll = 10 := by
    norm_num [calculate_score, reportAll]
  have h2 : calculate_score (addIssue reportAll errDep) = 10 := by
    norm_num [calculate_score, reportAll, addIssue, errDep, mkIssue, issueDeduction]
  exact ⟨rfl, rfl, h1, h2, by rw [h1, h2]; norm_num⟩

/-- Claim C3 (amended): for every code string and language tag the score lies
in [0, 10] and is computed as base 5.0 plus fixed increments minus 1.0 per
Error and 0.3 per Warning (Info deducting nothing), clamped to [0, 10]; adding
any single additional Error-severity issue never increases the score and
strictly decreases it, leaves it at 0, or leaves it at the upper clamp 10. -/
theorem C3_score_range_and_error_decrease (re : Re) (code lang : String)
    (r : ParsedOutput) (e : QualityIssue) (he : e.severity = .error) :
    (0 ≤ (OutputParser.parse re code lang).quality_score ∧
      (OutputParser.parse re code lang).quality_score ≤ 10) ∧
    calculate_score (addIssue r e) ≤ calculate_score r ∧
    (calculate_score (addIssue r e) < calculate_score r ∨
      calculate_score (addIssue r e) = 0 ∨ calculate_score r = 10) :=
  ⟨parse_score_mem_unit re code lang,
   calculate_score_addIssue_error_le r e he,
   calculate_score_addIssue_error_cases r e he⟩

/-- Witness for C3 at a concrete report and Error issue. -/
theorem C3_witness :
    errDep.severity = .error ∧
    ((0 ≤ (OutputParser.parse reNone "x" "go").quality_score ∧
      (OutputParser.parse reNone "x" "go").quality_score ≤ 10) ∧
    calculate_score (addIssue reportAll errDep) ≤ calculate_score reportAll ∧
    (calculate_score (addIssue reportAll errDep) < calculate_score reportAll ∨
      calculate_score (addIssue reportAll errDep) = 0 ∨
      calculate_score reportAll = 10)) :=
  ⟨rfl, C3_score_range_and_error_decrease reNone "x" "go" reportAll errDep rfl⟩

/-- Claim C4, counterexample: for the unknown language tag "ruby" and the code
`"(("` with unbalanced parentheses, `parse` emits a single issue of severity
Warning — not Info — and no `syntax-parens` issue at all, leaving
`is_valid_syntax` true: the structural balance check is skipped, not run. -/
theorem C4_counterexample :
    countChar "((" openParen ≠ countChar "((" closeParen ∧
    (OutputParser.parse reNone "((" "ruby").issues.map QualityIssue.severity =
      [Severity.warning] ∧
    (OutputParser.parse reNone "((" "ruby").issues.all
      (fun i => i.rule ≠ "syntax-parens") = true ∧
    (OutputParser.parse reNone "((" "ruby").syntax_valid = true := by
  refine ⟨by decide, by decide, by decide, by decide⟩

/-- Claim C4 (amended): for every language tag with no entry in the rule
table, `parse` still returns normally with a neutral score of 5.0 and a single
Warning-level "unknown language" issue, skipping all table-driven checks and
also the structural balanced-delimiter check (so `is_valid_syntax` stays true
even for unbalanced code). -/
theorem C4_unknown_language_neutral (re : Re) (code language : String)
    (h : LANGUAGE_RULES (pyLower language) = none) :
    (OutputParser.parse re code language).quality_score = 5 ∧
    (OutputParser.parse re code language).issues =
      [unknownLanguageIssue (pyLower language)] ∧
    (unknownLanguageIssue (pyLower language)).severity = .warning ∧
    (OutputParser.parse re code language).syntax_valid = true := by
  unfold OutputParser.parse
  simp [h, addIssue, unknownLanguageIssue, mkIssue]

/-- Witness for C4 at the concrete unknown language "ruby". -/
theorem C4_witness :
    LANGUAGE_RULES (pyLower "ruby") = none ∧
    ((OutputParser.parse reNone "y" "ruby").quality_score = 5 ∧
    (OutputParser.parse reNone "y" "ruby").issues =
      [unknownLanguageIssue (pyLower "ruby")] ∧
    (unknownLanguageIssue (pyLower "ruby")).severity = .warning ∧
    (OutputParser.parse reNone "y" "ruby").syntax_valid = true) :=
  ⟨by decide, C4_unknown_language_neutral reNone "y" "ruby" (by decide)⟩

theorem extract_keywords_empty : extract_keywords "" = ∅ := by decide

theorem errors_similar_self (x : String) (hx : extract_keywords x ≠ ∅) :
    errors_are_similar x x = true := by
  have hxe : ¬(x = "" ∨ x = "") := by
    rintro (rfl | rfl) <;> exact hx extract_keywords_empty
  unfold errors_are_similar
  rw [if_neg hxe]
  simp only
  rw [if_neg (by simpa using hx)]
  simp only [Finset.inter_self, Finset.union_self]
  have hpos : 0 < (extract_keywords x).card :=
    Finset.card_pos.mpr (Finset.nonempty_iff_ne_empty.mpr hx)
  rw [if_pos hpos]
  have hone : ((extract_keywords x).card : ℚ) / ((extract_keywords x).card : ℚ) = 1 :=
    div_self (by exact_mod_cast hpos.ne.symm)
  rw [hone]
  simp only [decide_eq_true_eq]
  norm_num

/-- Claim C5, counterexample: `"a"` is a non-empty string, yet
`errors_are_similar "a" "a"` is `false` — every token of length ≤ 2 is
filtered out, the keyword set is empty, and the detector returns `false`
before computing any similarity. -/
theorem C5_counterexample :
    "a" ≠ "" ∧ errors_are_similar "a" "a" = false := ⟨by decide, by decide⟩

/-- Claim C5 (amended): the convergence detector is reflexive on every string
whose filtered keyword set is non-empty (for such `x` the Jaccard similarity
of `x` with itself is 1 ≥ 0.6); strings whose tokens are all stopwords, short,
or numeric compare unequal to themselves. -/
theorem C5_reflexive_on_nonempty_keywords (x : String)
    (hx : extract_keywords x ≠ ∅) : errors_are_similar x x = true :=
  errors_similar_self x hx

/-- Witness for C5 at a concrete error excerpt. -/
theorem C5_witness :
    extract_keywords "undefined: fooBar" ≠ ∅ ∧
      errors_are_similar "undefined: fooBar" "undefined: fooBar" = true :=
  ⟨by decide, C5_reflexive_on_nonempty_keywords "undefined: fooBar" (by decide)⟩

theorem captureLines_length_le (kws : List String) (ls : List String) :
    ∀ (cn : Nat) (acc : List String), acc.length < 30 →
      (captureLines kws ls cn acc).length ≤ 30 := by
  induction ls with
  | nil => intro cn acc hacc; exact le_of_lt hacc
  | cons l ls ih =>
    intro cn acc hacc
    simp only [captureLines]
    set hit := kws.any (fun kw => strContains l kw) with hhit
    set acc2 := if hit then acc ++ [l] else if 0 < cn then acc ++ [l] else acc with hacc2
    have h2 : acc2.length ≤ acc.length + 1 := by
      rw [hacc2]
      split
      · simp
      · split <;> simp
    by_cases h30 : 30 ≤ acc2.length
    · rw [if_pos h30]; omega
    · rw [if_neg h30]
      exact ih _ acc2 (by omega)

theorem captureLines_mem (kws : List String) (P : String → Prop) (ls : List String) :
    ∀ (cn : Nat) (acc : List String), (∀ l ∈ acc, P l) → (∀ l ∈ ls, P l) →
      ∀ l ∈ captureLines kws ls cn acc, P l := by
  induction ls with
  | nil => intro cn acc h1 _ l hl; exact h1 l hl
  | cons x ls ih =>
    intro cn acc h1 h2 l hl
    simp only [captureLines] at hl
    set hit := kws.any (fun kw => strContains x kw) with hhit
    set acc2 := if hit then acc ++ [x] else if 0 < cn then acc ++ [x] else acc with heq2
    have h1b : ∀ y ∈ acc2, P y := by
      intro y hy
      rw [heq2] at hy
      have hx : P x := h2 x (List.mem_cons_self _ _)
      split at hy
      · rcases List.mem_append.mp hy with h | h
        · exact h1 y h
        · rw [List.mem_singleton.mp h]; exact hx
      · split at hy
        · rcases List.mem_append.mp hy with h | h
          · exact h1 y h
          · rw [List.mem_singleton.mp h]; exact hx
        · exact h1 y hy
    by_cases h30 : 30 ≤ acc2.length
    · rw [if_pos h30] at hl; exact h1b l hl
    · rw [if_neg h30] at hl
      exact ih _ acc2 h1b (fun y hy => h2 y (List.mem_cons_of_mem _ hy)) l hl

theorem captureAll_length_le (ls : List String) :
    ∀ (cap : Bool) (acc : List String), acc.length < 30 →
      (captureAll ls cap acc).length ≤ 30 := by
  induction ls with
  | nil => intro cap acc hacc; exact le_of_lt hacc
  | cons l ls ih =>
    intro cap acc hacc
    simp only [captureAll]
    split
    · by_cases h30 : 30 ≤ (acc ++ [l]).length
      · rw [if_pos h30]; simp; omega
      · rw [if_neg h30]
        exact ih _ _ (by simp at h30 ⊢; omega)
    · exact ih _ acc hacc

theorem captureAll_mem (P : String → Prop) (ls : List String) :
    ∀ (cap : Bool) (acc : List String), (∀ l ∈ acc, P l) → (∀ l ∈ ls, P l) →
      ∀ l ∈ captureAll ls cap acc, P l := by
  induction ls with
  | nil => intro cap acc h1 _ l hl; exact h1 l hl
  | cons x ls ih =>
    intro cap acc h1 h2 l hl
    simp only [captureAll] at hl
    have hx : P x := h2 x (List.mem_cons_self _ _)
    have h1b : ∀ y ∈ acc ++ [x], P y := by
      intro y hy
      rcases List.mem_append.mp hy with h | h
      · exact h1 y h
      · rw [List.mem_singleton.mp h]; exact hx
    have h2b : ∀ y ∈ ls, P y := fun y hy => h2 y (List.mem_cons_of_mem _ hy)
    split at hl
    · by_cases h30 : 30 ≤ (acc ++ [x]).length
      · rw [if_pos h30] at hl; exact h1b l hl
      · rw [if_neg h30] at hl; exact ih _ _ h1b h2b l hl
    · exact ih _ acc h1 h2b l hl

theorem splitNL_joinNL_length (lines : List String) (hne : lines ≠ [])
    (hnl : ∀ l ∈ lines, '\n' ∉ l.data) :
    (splitNL (joinNL lines)).length = lines.length := by
  rw [splitNL_joinNL lines hne hnl]

/-- Claim C7: for every raw output string and every language tag, both error
excerpt extractors return a string of at most 30 newline-separated lines
(`extract_error_lines` of the workflow runner and `_extract_error_message` of
the test runner; the fallback paths return at most 20 lines). -/
theorem C7_excerpt_line_bound (output language : String) :
    (splitNL (extract_error_lines output language)).length ≤ 30 ∧
      (splitNL (extract_error_message output)).length ≤ 30 := by
  have hlines_nl : ∀ l ∈ splitNL output, '\n' ∉ l.data :=
    mem_splitNL_no_newline output
  have hlines_ne : splitNL output ≠ [] := splitNL_ne_nil output
  have hlen_pos : 0 < (splitNL output).length := List.length_pos.mpr hlines_ne
  constructor
  · unfold extract_error_lines
    simp only
    split
    · next hne =>
      rw [splitNL_joinNL_length _ hne
        (captureLines_mem _ _ _ _ _ (by intro l hl; cases hl) hlines_nl)]
      exact captureLines_length_le _ _ 0 [] (by simp)
    · have hdne : (splitNL output).drop ((splitNL output).length - 20) ≠ [] := by
        intro h
        have := congrArg List.length h
        simp at this
        omega
      rw [splitNL_joinNL_length _ hdne
        (fun l hl => hlines_nl l (List.drop_subset _ _ hl))]
      simp
      omega
  · unfold extract_error_message
    simp only
    split
    · next hne =>
      rw [splitNL_joinNL_length _ hne
        (captureAll_mem _ _ _ _ (by intro l hl; cases hl) hlines_nl)]
      exact captureAll_length_le _ false [] (by simp)
    · split
      · next h20 =>
        have hdne : (splitNL output).drop ((splitNL output).length - 20) ≠ [] := by
          intro h
          have := congrArg List.length h
          simp at this
          omega
        rw [splitNL_joinNL_length _ hdne
          (fun l hl => hlines_nl l (List.drop_subset _ _ hl))]
        simp
        omega
      · next h20 =>
        omega

/-- Claim C8: the result of the Process Runner is passing iff the child exits with
code 0 (any nonzero exit code yields a failed result), and on timeout expiry
it returns a synthetic failed result with sentinel exit code −1 and a
"timed out after N" message rather than propagating an exception. -/
theorem C8_exit_code_contract (timeout : Nat) (cmd : String) (rc : Int)
    (stdout stderr : String) :
    ((executeTestCommand timeout cmd (.completed rc stdout stderr)).passed = true ↔
      rc = 0) ∧
    (executeTestCommand timeout cmd .timedOut).passed = false ∧
    (executeTestCommand timeout cmd .timedOut).exit_code = -1 ∧
    (executeTestCommand timeout cmd .timedOut).error_message =
      some ("Test execution timed out after " ++ toString timeout ++ "s") := by
  refine ⟨?_, rfl, rfl, rfl⟩
  unfold executeTestCommand
  by_cases h : rc = 0
  · simp [h]
  · simp [h]

theorem TEST_COMMANDS_none_iff (language : String) :
    TEST_COMMANDS language = none ↔ language ∉ supportedLanguages := by
  unfold TEST_COMMANDS supportedLanguages
  constructor
  · intro h hmem
    fin_cases hmem <;> simp_all
  · intro hmem
    split_ifs with h1 h2 h3 h4 h5 h6 <;> simp_all [h1]

/-- Claim C10: constructing a `TestRunner` for any language tag whose
lowercased form is not one of javascript, typescript, go, python, java,
kotlin raises a `ValueError`, so the runner can never be asked to execute
tests for an unsupported language. -/
theorem C10_unsupported_language_rejected (language repo_path : String)
    (timeout : Nat) (install_deps : Bool)
    (h : pyLower language ∉ supportedLanguages) :
    TestRunner.init language repo_path timeout install_deps =
      .error ("Unsupported language: " ++ language) := by
  have hn : TEST_COMMANDS (pyLower language) = none :=
    (TEST_COMMANDS_none_iff (pyLower language)).mpr h
  simp [TestRunner.init, hn]

/-- Witness for C10 at the concrete unsupported language "Rust". -/
theorem C10_witness :
    pyLower "Rust" ∉ supportedLanguages ∧
      TestRunner.init "Rust" "/repo" 120 true =
        .error ("Unsupported language: " ++ "Rust") :=
  ⟨by decide, C10_unsupported_language_rejected "Rust" "/repo" 120 true (by decide)⟩

theorem loopAux_zero (gen : GenStub) (exec : ExecStub) (mr attempt : Nat)
    (st : LoopState) : loopAux gen exec mr attempt 0 st = st := rfl

theorem loopAux_succ (gen : GenStub) (exec : ExecStub) (mr attempt rem : Nat)
    (st : LoopState) :
    loopAux gen exec mr attempt (rem + 1) st =
      if (loopStep gen exec mr attempt st).2 then (loopStep gen exec mr attempt st).1
      else loopAux gen exec mr (attempt + 1) rem (loopStep gen exec mr attempt st).1 := rfl

theorem loopStep_attempts (gen : GenStub) (exec : ExecStub) (mr attempt : Nat)
    (st : LoopState) :
    (loopStep gen exec mr attempt st).1.result.attempts = attempt := by
  simp only [loopStep]
  repeat' split
  all_goals rfl

theorem loopAux_attempts_le (gen : GenStub) (exec : ExecStub) (mr : Nat) :
    ∀ (rem attempt : Nat) (st : LoopState),
      (loopAux gen exec mr attempt rem st).result.attempts ≤
        max st.result.attempts (attempt + rem - 1) := by
  intro rem
  induction rem with
  | zero => intro attempt st; exact le_max_left _ _
  | succ rem ih =>
    intro attempt st
    rw [loopAux_succ]
    split
    · rw [loopStep_attempts]
      exact le_trans (by omega : attempt ≤ attempt + (rem + 1) - 1) (le_max_right _ _)
    · refine le_trans (ih (attempt + 1) _) (max_le ?_ ?_)
      · rw [loopStep_attempts]
        exact le_trans (by omega : attempt ≤ attempt + (rem + 1) - 1) (le_max_right _ _)
      · exact le_trans (by omega : attempt + 1 + rem - 1 ≤ attempt + (rem + 1) - 1)
          (le_max_right _ _)

/-- Claim C2: for every configured `max_retries`, every generator stub, every
execution stub, every initial directory and every revision feedback — that
is, every possible execution path of the retry control loop — the loop (a
structurally terminating function of the remaining iteration count) reports
`attempts <= max_retries + 1`. -/
theorem C2_attempts_bounded (gen : GenStub) (exec : ExecStub) (maxRetries : Nat)
    (initDir : Finset String) (fb : Option String) :
    (runWorkflow gen exec maxRetries initDir fb).result.attempts ≤ maxRetries + 1 := by
  have h := loopAux_attempts_le gen exec maxRetries (maxRetries + 1) 1
    (initState initDir fb)
  have h2 : 1 + (maxRetries + 1) - 1 = maxRetries + 1 := by omega
  rw [h2] at h
  simpa [runWorkflow, initState] using h

theorem loopStep_runnerCalls_of_has_tests (gen : GenStub) (exec : ExecStub)
    (mr attempt : Nat) (st : LoopState)
    (hg : (gen attempt st.feedback).has_tests = true) :
    (loopStep gen exec mr attempt st).1.runnerCalls = st.runnerCalls ++
      [(attempt, (gen attempt st.feedback).generated_tests.map
        (fun t => pathName t.filename))] := by
  simp only [loopStep, hg, if_true]
  repeat' split
  all_goals rfl

theorem loopStep_runnerCalls_extends (gen : GenStub) (exec : ExecStub)
    (mr attempt : Nat) (st : LoopState) :
    ∃ t, (loopStep gen exec mr attempt st).1.runnerCalls = st.runnerCalls ++ t := by
  simp only [loopStep]
  repeat' split
  all_goals first
    | exact ⟨_, rfl⟩
    | (refine ⟨[], ?_⟩; simp)

theorem loopAux_runnerCalls_extends (gen : GenStub) (exec : ExecStub) (mr : Nat) :
    ∀ (rem attempt : Nat) (st : LoopState),
      ∃ t, (loopAux gen exec mr attempt rem st).runnerCalls = st.runnerCalls ++ t := by
  intro rem
  induction rem with
  | zero => intro attempt st; exact ⟨[], by simp [loopAux_zero]⟩
  | succ rem ih =>
    intro attempt st
    rw [loopAux_succ]
    split
    · exact loopStep_runnerCalls_extends gen exec mr attempt st
    · obtain ⟨t1, h1⟩ := loopStep_runnerCalls_extends gen exec mr attempt st
      obtain ⟨t2, h2⟩ := ih (attempt + 1) (loopStep gen exec mr attempt st).1
      exact ⟨t1 ++ t2, by rw [h2, h1, List.append_assoc]⟩

/-- Claim C1 (amended): the retry loop never consults the quality reports at
all — whenever the generation of an attempt yields tests, the Process Runner is
invoked on exactly those artifacts on that same attempt, even when every
quality report for them is blocking; no `Blocked` outcome exists in
`WorkflowResult`. Concretely: if attempt 1 generates tests, the first recorded
Process Runner invocation is attempt 1 on those artifacts, for every
generator, executor, retry budget and starting state. -/
theorem C1_runner_invoked_despite_blocking_reports (gen : GenStub)
    (exec : ExecStub) (maxRetries : Nat) (initDir : Finset String)
    (fb : Option String) (h : (gen 1 fb).has_tests = true) :
    (runWorkflow gen exec maxRetries initDir fb).runnerCalls.head? =
      some (1, (gen 1 fb).generated_tests.map (fun t => pathName t.filename)) := by
  unfold runWorkflow
  rw [loopAux_succ]
  have hcalls := loopStep_runnerCalls_of_has_tests gen exec maxRetries 1
    (initState initDir fb) h
  split
  · rw [hcalls]
    rfl
  · obtain ⟨t, ht⟩ := loopAux_runnerCalls_extends gen exec maxRetries maxRetries 2
      (loopStep gen exec maxRetries 1 (initState initDir fb)).1
    rw [ht, hcalls]
    rfl

/-- Claim C1, counterexample: with a generator whose only artifact has empty
code — whose quality report has Error-severity issues, hence `is_blocking` —
the loop still invokes the Process Runner on those artifacts on attempt 1 and
finishes with `tests_pass`; there is no `Blocked` stop. -/
theorem C1_counterexample :
    (OutputParser.parse reNone "" "javascript").issues.any
      (fun i => i.severity == .error) = true ∧
    (runWorkflow genBlocked execPass 2 ∅ none).runnerCalls =
      [(1, ["items.test.js"])] ∧
    (runWorkflow genBlocked execPass 2 ∅ none).result.tests_pass = true := by
  refine ⟨by decide, by decide, by decide⟩

/-- Witness for C1 at a concrete generator stub. -/
theorem C1_witness :
    (genBlocked 1 none).has_tests = true ∧
      (runWorkflow genBlocked execPass 2 ∅ none).runnerCalls.head? =
        some (1, (genBlocked 1 none).generated_tests.map
          (fun t => pathName t.filename)) :=
  ⟨rfl, C1_runner_invoked_despite_blocking_reports genBlocked execPass 2 ∅ none rfl⟩

theorem loopStep_fail_norepeat (gen : GenStub) (exec : ExecStub)
    (mr attempt : Nat) (st : LoopState) (e : String)
    (hg : (gen attempt st.feedback).has_tests = true)
    (he : exec attempt ((gen attempt st.feedback).generated_tests.map
      (fun t => pathName t.filename)) = (false, e))
    (hprev : st.previous_error = none)
    (hle : attempt ≤ mr) :
    (loopStep gen exec mr attempt st).2 = false ∧
    (loopStep gen exec mr attempt st).1.previous_error = some e ∧
    (loopStep gen exec mr attempt st).1.result.tests_pass = st.result.tests_pass ∧
    (loopStep gen exec mr attempt st).1.result.stopped_early = st.result.stopped_early := by
  simp only [loopStep, hg, he, hprev, hle, if_true, ite_true, ite_false]
  simp

theorem loopStep_fail_repeat (gen : GenStub) (exec : ExecStub)
    (mr attempt : Nat) (st : LoopState) (p e : String)
    (hg : (gen attempt st.feedback).has_tests = true)
    (he : exec attempt ((gen attempt st.feedback).generated_tests.map
      (fun t => pathName t.filename)) = (false, e))
    (hprev : st.previous_error = some p)
    (hp : p ≠ "")
    (hsim : errors_are_similar p e = true) :
    (loopStep gen exec mr attempt st).2 = true ∧
    (loopStep gen exec mr attempt st).1.result.attempts = attempt ∧
    (loopStep gen exec mr attempt st).1.result.stopped_early = true ∧
    (loopStep gen exec mr attempt st).1.result.tests_pass = st.result.tests_pass := by
  simp only [loopStep, hg, he, hprev, hp, hsim, if_true, ite_true, ite_false]
  simp [hp, hsim]

/-- Claim C6 (amended): when execution fails on consecutive attempts with the
same error excerpt and that excerpt has a non-empty filtered keyword set (so
the self-similarity computed by the detector is 1 ≥ 0.6), the loop stops after attempt 2
with the same-error outcome (`stopped_early`) instead of continuing to
exhaustion; excerpts whose tokens are all stopwords, short or numeric never
trigger the stop. -/
theorem C6_same_error_stops_at_attempt_2 (gen : GenStub) (exec : ExecStub)
    (maxRetries : Nat) (initDir : Finset String) (e : String)
    (hg : ∀ a f, (gen a f).has_tests = true)
    (he : ∀ a fs, exec a fs = (false, e))
    (hk : extract_keywords e ≠ ∅)
    (hm : 1 ≤ maxRetries) :
    (runWorkflow gen exec maxRetries initDir none).result.attempts = 2 ∧
    (runWorkflow gen exec maxRetries initDir none).result.stopped_early = true ∧
    (runWorkflow gen exec maxRetries initDir none).result.tests_pass = false := by
  have hene : e ≠ "" := fun h => hk (h ▸ extract_keywords_empty)
  obtain ⟨k, rfl⟩ : ∃ k, maxRetries = k + 1 := ⟨maxRetries - 1, by omega⟩
  unfold runWorkflow
  have s1 := loopStep_fail_norepeat gen exec (k + 1) 1 (initState initDir none) e
    (hg _ _) (he _ _) rfl (by omega)
  have s2 := loopStep_fail_repeat gen exec (k + 1) 2
    (loopStep gen exec (k + 1) 1 (initState initDir none)).1 e e
    (hg _ _) (he _ _) s1.2.1 hene (errors_similar_self e hk)
  rw [loopAux_succ, if_neg (by simp [s1.1]), loopAux_succ, if_pos s2.1]
  refine ⟨s2.2.1, s2.2.2.1, ?_⟩
  rw [s2.2.2.2, s1.2.2.1]
  rfl

/-- Claim C6, counterexample: with identical failing excerpts on every
attempt — but excerpts whose words are all stopwords/short/numeric — the loop
does NOT stop at attempt 2 with the same-error outcome: it runs to exhaustion
at attempt 3 (`max_retries = 2`) with `stopped_early = false`. -/
theorem C6_counterexample :
    (runWorkflow genAlways execStopword 2 ∅ none).result.attempts = 3 ∧
    (runWorkflow genAlways execStopword 2 ∅ none).result.stopped_early = false ∧
    (runWorkflow genAlways execStopword 2 ∅ none).result.error =
      some "Tests failed validation after all retry attempts" := by
  refine ⟨by decide, by decide, by decide⟩

/-- Witness for C6 at concrete stubs. -/
theorem C6_witness :
    (runWorkflow genAlways execSameErr 1 ∅ none).result.attempts = 2 ∧
    (runWorkflow genAlways execSameErr 1 ∅ none).result.stopped_early = true ∧
    (runWorkflow genAlways execSameErr 1 ∅ none).result.tests_pass = false :=
  C6_same_error_stops_at_attempt_2 genAlways execSameErr 1 ∅ "undefined: fooBar"
    (fun _ _ => rfl) (fun _ _ => rfl) (by decide) (by decide)

theorem write_event_inv (attempt : Nat) (before : Finset String)
    (files : List String) (f : String) :
    f ∈ ((if 1 < attempt then
        before.filter (fun x => strEndsWith x ".test.js" = false) else before) ∪
      files.toFinset) ↔
      f ∈ files.toFinset ∨
        (f ∈ before ∧ (attempt ≤ 1 ∨ strEndsWith f ".test.js" = false)) := by
  by_cases h : 1 < attempt
  · have h2 : ¬(attempt ≤ 1) := by omega
    simp only [h, if_true, Finset.mem_union, Finset.mem_filter, h2, false_or]
    tauto
  · have h2 : attempt ≤ 1 := by omega
    simp only [h, if_false, Finset.mem_union, h2, true_or, and_true]
    tauto

theorem loopStep_writes_eq (gen : GenStub) (exec : ExecStub) (mr attempt : Nat)
    (st : LoopState) :
    (loopStep gen exec mr attempt st).1.writes = st.writes ∨
    (loopStep gen exec mr attempt st).1.writes = st.writes ++
      [⟨attempt, st.dir,
        (if 1 < attempt then
          st.dir.filter (fun x => strEndsWith x ".test.js" = false) else st.dir) ∪
          ((gen attempt st.feedback).generated_tests.map
            (fun t => pathName t.filename)).toFinset,
        (gen attempt st.feedback).generated_tests.map (fun t => pathName t.filename)⟩] := by
  simp only [loopStep]
  repeat' split
  all_goals first
    | exact Or.inl rfl
    | exact Or.inr rfl

theorem loopStep_writes_inv (gen : GenStub) (exec : ExecStub) (mr attempt : Nat)
    (st : LoopState) :
    ∀ w ∈ (loopStep gen exec mr attempt st).1.writes,
      w ∈ st.writes ∨
        ∀ f, f ∈ w.dirAfter ↔ f ∈ w.files.toFinset ∨
          (f ∈ w.dirBefore ∧ (w.attempt ≤ 1 ∨ strEndsWith f ".test.js" = false)) := by
  intro w hw
  rcases loopStep_writes_eq gen exec mr attempt st with heq | heq
  · rw [heq] at hw
    exact Or.inl hw
  · rw [heq] at hw
    rcases List.mem_append.mp hw with h | h
    · exact Or.inl h
    · right
      rw [List.mem_singleton.mp h]
      intro f
      exact write_event_inv attempt st.dir _ f

theorem loopAux_writes_inv (gen : GenStub) (exec : ExecStub) (mr : Nat) :
    ∀ (rem attempt : Nat) (st : LoopState),
      (∀ w ∈ st.writes, ∀ f, f ∈ w.dirAfter ↔ f ∈ w.files.toFinset ∨
        (f ∈ w.dirBefore ∧ (w.attempt ≤ 1 ∨ strEndsWith f ".test.js" = false))) →
      ∀ w ∈ (loopAux gen exec mr attempt rem st).writes,
        ∀ f, f ∈ w.dirAfter ↔ f ∈ w.files.toFinset ∨
          (f ∈ w.dirBefore ∧ (w.attempt ≤ 1 ∨ strEndsWith f ".test.js" = false)) := by
  intro rem
  induction rem with
  | zero => intro attempt st hSt; exact hSt
  | succ rem ih =>
    intro attempt st hSt
    rw [loopAux_succ]
    have hstep : ∀ w ∈ (loopStep gen exec mr attempt st).1.writes,
        ∀ f, f ∈ w.dirAfter ↔ f ∈ w.files.toFinset ∨
          (f ∈ w.dirBefore ∧ (w.attempt ≤ 1 ∨ strEndsWith f ".test.js" = false)) := by
      intro w hw
      rcases loopStep_writes_inv gen exec mr attempt st w hw with h | h
      · exact hSt w h
      · exact h
    split
    · exact hstep
    · exact ih (attempt + 1) _ hstep

/-- Claim C9 (amended): at the Writing step, artifacts are cleaned only from
attempt 2 on and only files matching `*.test.js` are removed; after writing,
the directory contains exactly the new files together with every prior file
that either survives because the attempt is the first or because its name
does not end in `.test.js`. Stale files with other names are NOT removed. -/
theorem C9_only_testjs_cleared (gen : GenStub) (exec : ExecStub)
    (maxRetries : Nat) (initDir : Finset String) (fb : Option String) :
    ∀ w ∈ (runWorkflow gen exec maxRetries initDir fb).writes, ∀ f,
      f ∈ w.dirAfter ↔ f ∈ w.files.toFinset ∨
        (f ∈ w.dirBefore ∧ (w.attempt ≤ 1 ∨ strEndsWith f ".test.js" = false)) := by
  apply loopAux_writes_inv
  intro w hw
  exact absurd hw (List.not_mem_nil w)

/-- Claim C9, counterexample: attempt 1 writes `a.spec.js`; attempt 2 writes
`b.test.js`; the cleanup before the write of attempt 2 removes only `*.test.js`
files, so the stale `a.spec.js` — absent from the artifact set of attempt 2 —
survives, and after writing the directory is NOT exactly the current
files of the current attempt. -/
theorem C9_counterexample :
    ((runWorkflow gen9 exec9 1 ∅ none).writes.getD 1 noWrite).attempt = 2 ∧
    "a.spec.js" ∈ ((runWorkflow gen9 exec9 1 ∅ none).writes.getD 1 noWrite).dirAfter ∧
    "a.spec.js" ∉ ((runWorkflow gen9 exec9 1 ∅ none).writes.getD 1 noWrite).files ∧
    ((runWorkflow gen9 exec9 1 ∅ none).writes.getD 1 noWrite).dirAfter ≠
      ((runWorkflow gen9 exec9 1 ∅ none).writes.getD 1 noWrite).files.toFinset := by
  refine ⟨by decide, by decide, by decide, by decide⟩

/-- Witness for C9 at a concrete run and file. -/
theorem C9_witness :
    ((runWorkflow gen9 exec9 1 ∅ none).writes.getD 0 noWrite) ∈
      (runWorkflow gen9 exec9 1 ∅ none).writes ∧
    ("a.spec.js" ∈ ((runWorkflow gen9 exec9 1 ∅ none).writes.getD 0 noWrite).dirAfter ↔
      "a.spec.js" ∈ ((runWorkflow gen9 exec9 1 ∅ none).writes.getD 0 noWrite).files.toFinset ∨
        ("a.spec.js" ∈ ((runWorkflow gen9 exec9 1 ∅ none).writes.getD 0 noWrite).dirBefore ∧
          (((runWorkflow gen9 exec9 1 ∅ none).writes.getD 0 noWrite).attempt ≤ 1 ∨
            strEndsWith "a.spec.js" ".test.js" = false))) :=
  ⟨by decide, C9_only_testjs_cleared gen9 exec9 1 ∅ none _ (by decide) "a.spec.js"⟩

end ContractTesting
